import Mathlib

/-!
Verification of the process-invocation core of `src/src-tauri/src/main.rs`
(a Tauri desktop shell forwarding chat messages to an external Python
script).  The Rust code is shallowly embedded: the effectful edges
(current-directory lookup, file-existence test, process spawn and output,
event emission) are parameters of the model, while everything the Rust
functions compute themselves (path construction, JSON decoding via
serde_json, control flow, error-message formatting, the order of reads,
emits and waits) is translated directly.
-/

/-! ## JSON values and parsing (model of serde_json)

serde_json parses a text into a JSON value and then runs the derived
deserializer of the target struct on it.  Numbers are kept as their
lexemes: no claim depends on numeric values, only on whether a field
holds a number at all. -/

inductive Json where
  | null
  | bool (b : Bool)
  | num (lexeme : String)
  | str (s : String)
  | arr (elems : List Json)
  | obj (fields : List (String × Json))

/-- JSON whitespace, as serde_json accepts between tokens. -/
def isJsonWs (c : Char) : Bool :=
  c = ' ' || c = '\t' || c = '\n' || c = '\r'

def skipWs : List Char → List Char
  | [] => []
  | c :: cs => if isJsonWs c then skipWs cs else c :: cs

def isHexDigit (c : Char) : Bool :=
  (  '0' ≤ c && c ≤ '9') || ( 'a' ≤ c && c ≤ 'f') || ( 'A' ≤ c && c ≤ 'F')

def hexVal (c : Char) : Nat :=
  if '0' ≤ c && c ≤ '9' then c.toNat - '0'.toNat
  else if 'a' ≤ c && c ≤ 'f' then c.toNat - 'a'.toNat + 10
  else if 'A' ≤ c && c ≤ 'F' then c.toNat - 'A'.toNat + 10
  else 0

/-- Parse the body of a JSON string after the opening quote; returns the
decoded characters and the input after the closing quote. -/
def parseStringBody : Nat → List Char → Option (List Char × List Char)
  | 0, _ => none
  | _ + 1, [] => none
  | fuel + 1, c :: cs =>
    if c = '"' then some ([], cs)
    else if c = '\\' then
      match cs with
      | [] => none
      | e :: cs' =>
        let cont (d : Char) (rest : List Char) : Option (List Char × List Char) :=
          match parseStringBody fuel rest with
          | some (s, r) => some (d :: s, r)
          | none => none
        if e = '"' then cont '"' cs'
        else if e = '\\' then cont '\\' cs'
        else if e = '/' then cont '/' cs'
        else if e = 'b' then cont (Char.ofNat 8) cs'
        else if e = 'f' then cont (Char.ofNat 12) cs'
        else if e = 'n' then cont '\n' cs'
        else if e = 'r' then cont '\r' cs'
        else if e = 't' then cont '\t' cs'
        else if e = 'u' then
          match cs' with
          | h1 :: h2 :: h3 :: h4 :: cs'' =>
            if isHexDigit h1 && isHexDigit h2 && isHexDigit h3 && isHexDigit h4 then
              cont (Char.ofNat
                (((hexVal h1 * 16 + hexVal h2) * 16 + hexVal h3) * 16 + hexVal h4)) cs''
            else none
          | _ => none
        else none
    else if c.toNat < 32 then none
    else
      match parseStringBody fuel cs with
      | some (s, r) => some (c :: s, r)
      | none => none

def isDigit (c : Char) : Bool := '0' ≤ c && c ≤ '9'

/-- Take the maximal run of decimal digits from the front of the input. -/
def takeDigits : List Char → (List Char × List Char)
  | [] => ([], [])
  | c :: cs =>
    if isDigit c then
      let (d, r) := takeDigits cs
      (c :: d, r)
    else ([], c :: cs)

/-- Parse the integer part of a JSON number: a single zero, or a nonzero
digit followed by digits (serde_json rejects leading zeros). -/
def parseIntPart : List Char → Option (List Char × List Char)
  | [] => none
  | c :: cs =>
    if c = '0' then some ([c], cs)
    else if isDigit c then
      let (d, r) := takeDigits cs
      some (c :: d, r)
    else none

/-- Parse the optional fraction part ('.' followed by one or more digits). -/
def parseFracPart (input : List Char) : Option (List Char × List Char) :=
  match input with
  | '.' :: cs =>
    match takeDigits cs with
    | ([], _) => none
    | (d, r) => some ('.' :: d, r)
  | _ => some ([], input)

/-- Parse the optional exponent part ([eE][+-]?digits). -/
def parseExpPart (input : List Char) : Option (List Char × List Char) :=
  match input with
  | c :: cs =>
    if c = 'e' || c = 'E' then
      let (sign, cs') := match cs with
        | s :: rest => if s = '+' || s = '-' then ([s], rest) else ([], s :: rest)
        | [] => ([], [])
      match takeDigits cs' with
      | ([], _) => none
      | (d, r) => some (c :: (sign ++ d), r)
    else some ([], input)
  | [] => some ([], [])

/-- Parse a JSON number starting at the current position, keeping its
lexeme. -/
def parseNumber (input : List Char) : Option (Json × List Char) :=
  let (neg, rest) := match input with
    | '-' :: cs => (['-'], cs)
    | _ => ([], input)
  match parseIntPart rest with
  | none => none
  | some (ip, r1) =>
    match parseFracPart r1 with
    | none => none
    | some (fp, r2) =>
      match parseExpPart r2 with
      | none => none
      | some (ep, r3) => some (.num (String.mk (neg ++ ip ++ fp ++ ep)), r3)

def isPrefixOf (p s : List Char) : Bool :=
  match p, s with
  | [], _ => true
  | _, [] => false
  | a :: p', b :: s' => a = b && isPrefixOf p' s'

mutual

/-- Parse one JSON value from the front of the input. -/
def parseVal : Nat → List Char → Option (Json × List Char)
  | 0, _ => none
  | fuel + 1, input =>
    match skipWs input with
    | [] => none
    | c :: cs =>
      if c = 'n' then
        if isPrefixOf ['u','l','l'] cs then some (.null, cs.drop 3) else none
      else if c = 't' then
        if isPrefixOf ['r','u','e'] cs then some (.bool true, cs.drop 3) else none
      else if c = 'f' then
        if isPrefixOf ['a','l','s','e'] cs then some (.bool false, cs.drop 4) else none
      else if c = '"' then
        match parseStringBody (cs.length + 1) cs with
        | some (s, r) => some (.str (String.mk s), r)
        | none => none
      else if c = '[' then
        match skipWs cs with
        | ']' :: r => some (.arr [], r)
        | cs' =>
          match parseElems fuel cs' with
          | some (es, r) => some (.arr es, r)
          | none => none
      else if c = '{' then
        match skipWs cs with
        | '}' :: r => some (.obj [], r)
        | cs' =>
          match parseMembers fuel cs' with
          | some (fs, r) => some (.obj fs, r)
          | none => none
      else parseNumber (c :: cs)

/-- Parse a comma-separated list of values up to the closing bracket. -/
def parseElems : Nat → List Char → Option (List Json × List Char)
  | 0, _ => none
  | fuel + 1, input =>
    match parseVal fuel input with
    | none => none
    | some (j, rest) =>
      match skipWs rest with
      | ',' :: r =>
        match parseElems fuel (skipWs r) with
        | some (es, r') => some (j :: es, r')
        | none => none
      | ']' :: r => some ([j], r)
      | _ => none

/-- Parse a comma-separated list of string-keyed members up to the closing
brace. -/
def parseMembers : Nat → List Char → Option (List (String × Json) × List Char)
  | 0, _ => none
  | fuel + 1, input =>
    match skipWs input with
    | '"' :: cs =>
      match parseStringBody (cs.length + 1) cs with
      | none => none
      | some (k, rest) =>
        match skipWs rest with
        | ':' :: r =>
          match parseVal fuel r with
          | none => none
          | some (v, rest') =>
            match skipWs rest' with
            | ',' :: r' =>
              match parseMembers fuel r' with
              | some (fs, r'') => some ((String.mk k, v) :: fs, r'')
              | none => none
            | '}' :: r' => some ([(String.mk k, v)], r')
            | _ => none
        | _ => none
    | _ => none

end

/-- serde_json::from_str requires the whole text to be one JSON value with
only whitespace around it. -/
def parseJson (s : String) : Option Json :=
  match parseVal (2 * s.length + 2) s.data with
  | some (j, rest) => if skipWs rest = [] then some j else none
  | none => none

/-! ## The two response structs of main.rs and their derived deserializers

main.rs lines 12-26.  serde's derived struct deserializer walks the
members of a JSON object in order: a member whose key matches a field
sets that field (an already-set field is a duplicate-field error, a
wrongly-typed value is an error), any other member is skipped (the
structs do not opt into deny_unknown_fields).  At the end every field
without a value of its own must be an Option field, which defaults to
None; the non-Option fields (success, chunk_type) are required. -/

structure ChatResponse where
  success : Bool
  message : Option String
  error : Option String
deriving DecidableEq, Repr

structure StreamChunk where
  chunk_type : String
  content : Option String
  success : Option Bool
  error : Option String
deriving DecidableEq, Repr

/-- Deserialize a JSON value into Option String, as serde does for an
Option field: null becomes none, a string becomes some. -/
def jsonOptString : Json → Option (Option String)
  | .null => some none
  | .str s => some (some s)
  | _ => none

/-- Deserialize a JSON value into Option Bool, as serde does for an
Option field. -/
def jsonOptBool : Json → Option (Option Bool)
  | .null => some none
  | .bool b => some (some b)
  | _ => none

/-- Deserialize a JSON value into a required Bool field. -/
def jsonBool : Json → Option Bool
  | .bool b => some b
  | _ => none

/-- Deserialize a JSON value into a required String field. -/
def jsonStr : Json → Option String
  | .str s => some s
  | _ => none

/-- Store a just-deserialized value into a field slot of the member walk:
a slot that already holds a value is serde's duplicate-field error, and a
value whose deserialization failed is a type error; both abort the
walk. -/
def setOnce {α : Type} (slot : Option α) (parsed : Option α) : Option (Option α) :=
  match slot, parsed with
  | none, some x => some (some x)
  | _, _ => none

/-- The member walk of the derived ChatResponse deserializer.  The three
accumulators hold the values seen so far for success, message and
error. -/
def chatRespLoop : List (String × Json) → Option Bool → Option (Option String) →
    Option (Option String) → Option ChatResponse
  | [], succ, msg, err =>
    match succ with
    | some s => some ⟨s, msg.getD none, err.getD none⟩
    | none => none
  | (k, v) :: rest, succ, msg, err =>
    if k = "success" then
      match setOnce succ (jsonBool v) with
      | some succ' => chatRespLoop rest succ' msg err
      | none => none
    else if k = "message" then
      match setOnce msg (jsonOptString v) with
      | some msg' => chatRespLoop rest succ msg' err
      | none => none
    else if k = "error" then
      match setOnce err (jsonOptString v) with
      | some err' => chatRespLoop rest succ msg err'
      | none => none
    else chatRespLoop rest succ msg err

def chatResponseFromJson : Json → Option ChatResponse
  | .obj fields => chatRespLoop fields none none none
  | _ => none

/-- serde_json::from_str::<ChatResponse>, as used on the whole captured
stdout in send_to_python (main.rs line 69). -/
def decodeChatResponse (text : String) : Option ChatResponse :=
  (parseJson text).bind chatResponseFromJson

/-- The member walk of the derived StreamChunk deserializer; the JSON key
of chunk_type is "type" (serde rename, main.rs line 21). -/
def streamChunkLoop : List (String × Json) → Option String → Option (Option String) →
    Option (Option Bool) → Option (Option String) → Option StreamChunk
  | [], ty, cont, succ, err =>
    match ty with
    | some t => some ⟨t, cont.getD none, succ.getD none, err.getD none⟩
    | none => none
  | (k, v) :: rest, ty, cont, succ, err =>
    if k = "type" then
      match setOnce ty (jsonStr v) with
      | some ty' => streamChunkLoop rest ty' cont succ err
      | none => none
    else if k = "content" then
      match setOnce cont (jsonOptString v) with
      | some cont' => streamChunkLoop rest ty cont' succ err
      | none => none
    else if k = "success" then
      match setOnce succ (jsonOptBool v) with
      | some succ' => streamChunkLoop rest ty cont succ' err
      | none => none
    else if k = "error" then
      match setOnce err (jsonOptString v) with
      | some err' => streamChunkLoop rest ty cont succ err'
      | none => none
    else streamChunkLoop rest ty cont succ err

def streamChunkFromJson : Json → Option StreamChunk
  | .obj fields => streamChunkLoop fields none none none none
  | _ => none

/-- serde_json::from_str::<StreamChunk>, as applied to each stdout line in
send_to_python_stream (main.rs line 124). -/
def decodeStreamChunk (line : String) : Option StreamChunk :=
  (parseJson line).bind streamChunkFromJson

/-! ## Platform and path resolution

main.rs computes the interpreter name from the target OS (lines 30, 41,
84) and the script path from the build configuration (lines 44-54 and
87-97, the same inlined block in both invokers).  PathBuf::push of a
relative component is modelled as appending with a separator. -/

def pythonCmd (windows : Bool) : String :=
  if windows then "python" else "python3"

/-- The script-path block shared by send_to_python and
send_to_python_stream.  currentDir is the outcome of
std::env::current_dir(). -/
def resolveScript (debugAssertions : Bool) (currentDir : Except String String) :
    Except String String :=
  if debugAssertions then
    match currentDir with
    | .ok d => .ok (d ++ "/python/chat_handler.py")
    | .error e => .error ("Failed to get current directory: " ++ e)
  else
    .ok "python/chat_handler.py"

/-- Modelled from the spec: the spec's production rule for
resolve_script_path, "in a packaged/production configuration, resolves
relative to the bundled-resource root", i.e. the fixed subpath joined
onto the resource root. -/
def resolveScriptSpecProd (resourceRoot : String) : String :=
  resourceRoot ++ "/python/chat_handler.py"

/-- The Debug formatting {:?} of a PathBuf wraps the path in quotes
(main.rs lines 57, 100). -/
def quoteDebug (s : String) : String := "\"" ++ s ++ "\""

/-! ## check_python_available (main.rs lines 29-36) -/

/-- The captured output of std::process::Command::output(): exit-status
success flag plus the stdout and stderr texts (String::from_utf8_lossy is
the identity on valid UTF-8, which is how the texts are modelled). -/
structure ProcOutput where
  statusSuccess : Bool
  stdout : String
  stderr : String
deriving DecidableEq, Repr

/-- main.rs lines 29-36.  output is the outcome of running the named
command with the given arguments (Err is a spawn failure carrying the OS
error text). -/
def check_python_available (windows : Bool)
    (output : String → List String → Except String ProcOutput) :
    Except String Bool :=
  match output (pythonCmd windows) ["--version"] with
  | .ok out => .ok out.statusSuccess
  | .error _ => .ok false

/-! ## send_to_python, the synchronous invoker (main.rs lines 39-76) -/

/-- The effectful edges of send_to_python: the build/platform flags, the
outcome of current_dir(), the existence test on the resolved path, and
the outcome of Command::output() for a given command and argument list. -/
structure SyncEnv where
  windows : Bool
  debugAssertions : Bool
  currentDir : Except String String
  pathExists : String → Bool
  output : String → List String → Except String ProcOutput

/-- main.rs lines 39-76, translated clause by clause. -/
def send_to_python (env : SyncEnv) (message : String) : Except String ChatResponse :=
  match resolveScript env.debugAssertions env.currentDir with
  | .error e => .error e
  | .ok python_script =>
    if ! env.pathExists python_script then
      .error ("Python script not found at: " ++ quoteDebug python_script)
    else
      match env.output (pythonCmd env.windows) [python_script, message] with
      | .error e => .error ("Failed to execute python: " ++ e)
      | .ok out =>
        if out.statusSuccess then
          match decodeChatResponse out.stdout with
          | some response => .ok response
          | none => .error ("Failed to parse python response: " ++ out.stdout)
        else
          .error ("Python script failed: " ++ out.stderr)

/-! ## send_to_python_stream, the streaming invoker (main.rs lines 79-134)

The async child process is modelled by what the invoker observes of it:
the sequence of complete lines its stdout yields, how the stream ends
(clean end-of-input or an I/O error), and the outcome of wait().  The
invoker itself is modelled as a function that, besides its Result, records
the trace of its observable actions, so that ordering and resource claims
(drain before wait, no kill) are statements about every trace. -/

/-- How the stdout line stream ends after its lines: tokio's
next_line() returning Ok(None), or an I/O error with message msg. -/
inductive ReadEnd where
  | eof
  | ioError (msg : String)
deriving DecidableEq, Repr

/-- A successfully spawned child, as observed through its handles.
stdoutAvailable models child.stdout.take() yielding Some; waitResult is
the outcome of child.wait() (Ok carries status.success(), which line 131
discards). -/
structure ChildSpec where
  stdoutAvailable : Bool
  stdoutLines : List String
  readEnd : ReadEnd
  waitResult : Except String Bool

/-- The observable actions of one streaming invocation, in order. -/
inductive StreamAction where
  | spawned
  | readLine (line : String)
  | readEOF
  | readErrored (msg : String)
  | emitted (channel : String) (chunk : StreamChunk)
  | waited (statusSuccess : Bool)
  | killed
deriving DecidableEq, Repr

/-- The effectful edges of send_to_python_stream.  spawn is the outcome
of AsyncCommand::spawn for a command and argument list; emitFail n is the
outcome of the (n+1)-th window.emit call (none = Ok, some e = Err e). -/
structure StreamEnv where
  windows : Bool
  debugAssertions : Bool
  currentDir : Except String String
  pathExists : String → Bool
  spawn : String → List String → Except String ChildSpec
  emitFail : Nat → Option String

/-- The while-let loop of main.rs lines 123-129 followed by the wait of
line 131, over the remaining lines; emitCount counts the emits already
performed.  Returns the actions performed and the Result. -/
def streamLoop (emitFail : Nat → Option String) (readEnd : ReadEnd)
    (waitResult : Except String Bool) :
    List String → Nat → List StreamAction × Except String Unit
  | [], _ =>
    match readEnd with
    | .eof =>
      match waitResult with
      | .ok status => ([.readEOF, .waited status], .ok ())
      | .error e => ([.readEOF], .error e)
    | .ioError msg => ([.readErrored msg], .error msg)
  | line :: rest, emitCount =>
    match decodeStreamChunk line with
    | none =>
      let (tr, res) := streamLoop emitFail readEnd waitResult rest emitCount
      (.readLine line :: tr, res)
    | some chunk =>
      match emitFail emitCount with
      | none =>
        let (tr, res) := streamLoop emitFail readEnd waitResult rest (emitCount + 1)
        (.readLine line :: .emitted "stream-chunk" chunk :: tr, res)
      | some e => ([.readLine line], .error e)

/-- main.rs lines 79-134, translated clause by clause; the first
component is the trace of actions. -/
def send_to_python_stream (env : StreamEnv) (message : String) :
    List StreamAction × Except String Unit :=
  match resolveScript env.debugAssertions env.currentDir with
  | .error e => ([], .error e)
  | .ok python_script =>
    if ! env.pathExists python_script then
      ([], .error ("Python script not found at: " ++ quoteDebug python_script))
    else
      match env.spawn (pythonCmd env.windows) [python_script, message] with
      | .error e => ([], .error ("Failed to execute python: " ++ e))
      | .ok child =>
        if child.stdoutAvailable then
          let (tr, res) :=
            streamLoop env.emitFail child.readEnd child.waitResult child.stdoutLines 0
          (.spawned :: tr, res)
        else
          ([.spawned], .error "Failed to capture stdout")

/-- The chunks delivered to the sink, in order, read off a trace. -/
def emittedChunks (trace : List StreamAction) : List StreamChunk :=
  trace.filterMap fun a =>
    match a with
    | .emitted _ c => some c
    | _ => none

/-- The lines read from the child's stdout, in order, read off a trace. -/
def linesRead (trace : List StreamAction) : List String :=
  trace.filterMap fun a =>
    match a with
    | .readLine l => some l
    | _ => none

/-! ## Theorems -/

/-- C4: for every synchronous invocation where the process runs and exits
with a non-success status, send_to_python fails with the
ProcessExecutionFailed error, whose text carries the script's captured
standard-error text verbatim. -/
theorem sync_failure_carries_stderr (env : SyncEnv) (message script : String)
    (out : ProcOutput)
    (hres : resolveScript env.debugAssertions env.currentDir = .ok script)
    (hex : env.pathExists script = true)
    (hout : env.output (pythonCmd env.windows) [script, message] = .ok out)
    (hfail : out.statusSuccess = false) :
    send_to_python env message = .error ("Python script failed: " ++ out.stderr) := by
  unfold send_to_python
  rw [hres]
  simp [hex, hout, hfail]

/-- Closed instance of sync_failure_carries_stderr: a script exiting
non-zero with stderr text "trace!" yields exactly that text after the
fixed prefix. -/
theorem sync_failure_carries_stderr_witness :
    send_to_python
      ⟨false, true, .ok "/cwd", fun _ => true, fun _ _ => .ok ⟨false, "", "trace!"⟩⟩
      "hello" = .error ("Python script failed: " ++ "trace!") :=
  sync_failure_carries_stderr _ "hello" "/cwd/python/chat_handler.py"
    ⟨false, "", "trace!"⟩ rfl rfl rfl rfl

/-- C5: for every synchronous invocation where the path resolves and
exists, the process exits successfully, and the whole captured stdout
decodes as a payload with success=true and a message, send_to_python
returns that exact decoded payload. -/
theorem sync_success_returns_decoded_message (env : SyncEnv) (message script m : String)
    (err : Option String) (out : ProcOutput)
    (hres : resolveScript env.debugAssertions env.currentDir = .ok script)
    (hex : env.pathExists script = true)
    (hout : env.output (pythonCmd env.windows) [script, message] = .ok out)
    (hok : out.statusSuccess = true)
    (hdec : decodeChatResponse out.stdout = some ⟨true, some m, err⟩) :
    send_to_python env message = .ok ⟨true, some m, err⟩ := by
  unfold send_to_python
  rw [hres]
  simp [hex, hout, hok, hdec]

/-- Closed instance of sync_success_returns_decoded_message: the spec's
concrete scenario, stdout = the JSON object with success true and message
"hi" together with exit 0 yields success=true, message="hi", error=null. -/
theorem sync_success_returns_decoded_message_witness :
    send_to_python
      ⟨false, true, .ok "/cwd", fun _ => true,
        fun _ _ => .ok ⟨true, "\x7b\"success\": true, \"message\": \"hi\"\x7d", ""⟩⟩
      "hello" = .ok ⟨true, some "hi", none⟩ :=
  sync_success_returns_decoded_message _ "hello" "/cwd/python/chat_handler.py" "hi" none
    ⟨true, "\x7b\"success\": true, \"message\": \"hi\"\x7d", ""⟩ rfl rfl rfl rfl (by decide)

/-- C9: the availability probe returns Ok true exactly when the probe
process starts and exits with a success status, and returns Ok false (not
an error) on every spawn failure. -/
theorem probe_true_iff_spawn_success (w : Bool)
    (output : String → List String → Except String ProcOutput) :
    (check_python_available w output = .ok true ↔
      ∃ o, output (pythonCmd w) ["--version"] = .ok o ∧ o.statusSuccess = true) ∧
    ∀ e, output (pythonCmd w) ["--version"] = .error e →
      check_python_available w output = .ok false := by
  unfold check_python_available
  cases h : output (pythonCmd w) ["--version"] <;> simp [h]

/-- Closed instance of probe_true_iff_spawn_success: when the interpreter
binary is absent (spawn fails with an OS error), the probe returns
Ok false rather than propagating the error. -/
theorem probe_true_iff_spawn_success_witness :
    check_python_available false (fun _ _ => .error "No such file or directory") =
      .ok false :=
  (probe_true_iff_spawn_success false _).2 "No such file or directory" rfl

/-- C10: for every outcome of the version-probe spawn,
check_python_available returns the Ok variant of its Result type; its Err
branch is unreachable. -/
theorem probe_never_errors (w : Bool)
    (output : String → List String → Except String ProcOutput) :
    ∃ b, check_python_available w output = .ok b := by
  unfold check_python_available
  cases h : output (pythonCmd w) ["--version"] <;> exact ⟨_, rfl⟩

/-- C7 counterexample: in the production configuration the code's script
path is the bare relative path "python/chat_handler.py" and is not the
spec's resource-root-anchored path, exhibited at resource root
"/opt/app/resources". -/
theorem script_path_prod_not_resource_root_cex :
    resolveScript false (.ok "/cwd") = .ok "python/chat_handler.py" ∧
    resolveScriptSpecProd "/opt/app/resources" =
      "/opt/app/resources/python/chat_handler.py" ∧
    ("python/chat_handler.py" : String) ≠ resolveScriptSpecProd "/opt/app/resources" := by
  refine ⟨rfl, rfl, ?_⟩
  decide

/-- C7 amended: in development the script path is the current working
directory joined with python/chat_handler.py; in production it is the
fixed relative path python/chat_handler.py with no resource-root
anchoring; and in both invokers a resolved path that does not exist makes
the call fail with the ScriptNotFound error, with no spawn attempted (the
sync result is the same for every output function, and the stream trace
is empty). -/
theorem script_path_resolution_amended :
    (∀ d, resolveScript true (.ok d) = .ok (d ++ "/python/chat_handler.py")) ∧
    (∀ cd, resolveScript false cd = .ok "python/chat_handler.py") ∧
    (∀ (env : SyncEnv) (message script : String),
      resolveScript env.debugAssertions env.currentDir = .ok script →
      env.pathExists script = false →
      send_to_python env message =
        .error ("Python script not found at: " ++ quoteDebug script)) ∧
    (∀ (env : StreamEnv) (message script : String),
      resolveScript env.debugAssertions env.currentDir = .ok script →
      env.pathExists script = false →
      send_to_python_stream env message =
        ([], .error ("Python script not found at: " ++ quoteDebug script))) := by
  refine ⟨fun d => rfl, fun cd => rfl, ?_, ?_⟩
  · intro env message script hres hex
    unfold send_to_python
    rw [hres]
    simp [hex]
  · intro env message script hres hex
    unfold send_to_python_stream
    rw [hres]
    simp [hex]

/-- Closed instance of script_path_resolution_amended: the development
resolution at cwd "/cwd", and a missing script making the synchronous
invoker fail with the ScriptNotFound message while its output function is
never consulted. -/
theorem script_path_resolution_amended_witness :
    resolveScript true (.ok "/cwd") = .ok "/cwd/python/chat_handler.py" ∧
    send_to_python ⟨false, false, .ok "/cwd", fun _ => false, fun _ _ => .error "unused"⟩
        "m" =
      .error ("Python script not found at: " ++ quoteDebug "python/chat_handler.py") :=
  ⟨script_path_resolution_amended.1 "/cwd",
   script_path_resolution_amended.2.2.1 _ "m" "python/chat_handler.py" rfl rfl⟩

/-- A member walk that never sees a "success" key ends with the required
success field unset and therefore fails, whatever it saw for message and
error. -/
theorem chatRespLoop_no_success (fields : List (String × Json))
    (msg err : Option (Option String))
    (h : "success" ∉ fields.map Prod.fst) :
    chatRespLoop fields none msg err = none := by
  induction fields generalizing msg err with
  | nil => rfl
  | cons kv rest ih =>
    obtain ⟨k, v⟩ := kv
    simp only [List.map_cons, List.mem_cons] at h
    push_neg at h
    obtain ⟨hk, hrest⟩ := h
    have hk' : ¬ k = "success" := fun hh => hk hh.symm
    unfold chatRespLoop
    rw [if_neg hk']
    by_cases hm : k = "message"
    · rw [if_pos hm]
      cases hv : setOnce msg (jsonOptString v) <;> simp [ih _ _ hrest]
    · rw [if_neg hm]
      by_cases he : k = "error"
      · rw [if_pos he]
        cases hv : setOnce err (jsonOptString v) <;> simp [ih _ _ hrest]
      · rw [if_neg he]
        exact ih _ _ hrest

/-- C6: the response decoder fails on text that is not JSON at all; an
object without a "success" member fails to decode (success is required);
an object with only a "success" member decodes, message and error
defaulting to none (both optional); a member with any other key is
skipped without affecting the walk (unknown fields ignored, not
rejected); and end to end, an object carrying an unknown field and null
message still decodes. -/
theorem decoder_schema_requirements :
    (∀ text, parseJson text = none → decodeChatResponse text = none) ∧
    (∀ fields, "success" ∉ fields.map Prod.fst →
      chatResponseFromJson (.obj fields) = none) ∧
    (∀ b, chatResponseFromJson (.obj [("success", .bool b)]) = some ⟨b, none, none⟩) ∧
    (∀ (k : String) (v : Json) rest succ msg err,
      k ≠ "success" → k ≠ "message" → k ≠ "error" →
      chatRespLoop ((k, v) :: rest) succ msg err = chatRespLoop rest succ msg err) ∧
    decodeChatResponse
        "\x7b\"success\": true, \"extra\": [1, 2.5e3, null], \"message\": null\x7d" =
      some ⟨true, none, none⟩ := by
  refine ⟨?_, ?_, fun b => rfl, ?_, by decide⟩
  · intro text h
    unfold decodeChatResponse
    rw [h]
    rfl
  · intro fields h
    exact chatRespLoop_no_success fields none none h
  · intro k v rest succ msg err hk hm he
    conv_lhs => rw [chatRespLoop]
    rw [if_neg hk, if_neg hm, if_neg he]

/-- Closed instance of decoder_schema_requirements: an object whose only
member is "message" fails to decode, and a walk step over the unknown key
"flag" is a no-op. -/
theorem decoder_schema_requirements_witness :
    chatResponseFromJson (.obj [("message", .str "hi")]) = none ∧
    chatRespLoop [("flag", .null), ("success", .bool true)] none none none =
      chatRespLoop [("success", .bool true)] none none none :=
  ⟨decoder_schema_requirements.2.1 [("message", .str "hi")] (by decide),
   decoder_schema_requirements.2.2.2.1 "flag" .null _ none none none
     (by decide) (by decide) (by decide)⟩

/-- A filterMap whose function succeeds on every element keeps the
length. -/
theorem length_filterMap_of_isSome {α β : Type} (f : α → Option β) :
    ∀ l : List α, (∀ x ∈ l, (f x).isSome) → (l.filterMap f).length = l.length := by
  intro l
  induction l with
  | nil => intro _; rfl
  | cons x xs ih =>
    intro h
    cases hf : f x with
    | none =>
      have hx := h x (List.mem_cons_self x xs)
      rw [hf] at hx
      simp at hx
    | some b =>
      have : (xs.filterMap f).length = xs.length :=
        ih fun y hy => h y (List.mem_cons_of_mem x hy)
      simp [List.filterMap_cons, hf, this]

/-- The streaming loop never performs a kill, whatever the child does. -/
theorem streamLoop_no_kill (ef : Nat → Option String) (re : ReadEnd)
    (w : Except String Bool) :
    ∀ (lines : List String) (k : Nat),
      StreamAction.killed ∉ (streamLoop ef re w lines k).1 := by
  intro lines
  induction lines with
  | nil =>
    intro k
    cases re with
    | eof =>
      cases w with
      | ok s => simp [streamLoop]
      | error e => simp [streamLoop]
    | ioError m => simp [streamLoop]
  | cons l rest ih =>
    intro k
    cases hd : decodeStreamChunk l with
    | none =>
      rcases hsp : streamLoop ef re w rest k with ⟨tr, res⟩
      have hs : streamLoop ef re w (l :: rest) k = (.readLine l :: tr, res) := by
        rw [streamLoop, hd, hsp]
      have htr := ih k
      rw [hsp] at htr
      rw [hs]
      simp only [List.mem_cons]
      rintro (h1 | h2)
      · exact absurd h1 (by simp)
      · exact htr h2
    | some c =>
      cases he : ef k with
      | none =>
        rcases hsp : streamLoop ef re w rest (k + 1) with ⟨tr, res⟩
        have hs : streamLoop ef re w (l :: rest) k =
            (.readLine l :: .emitted "stream-chunk" c :: tr, res) := by
          rw [streamLoop, hd, he, hsp]
        have htr := ih (k + 1)
        rw [hsp] at htr
        rw [hs]
        simp only [List.mem_cons]
        rintro (h1 | h2 | h3)
        · exact absurd h1 (by simp)
        · exact absurd h2 (by simp)
        · exact htr h3
      | some e =>
        have hs : streamLoop ef re w (l :: rest) k = ([.readLine l], .error e) := by
          rw [streamLoop, hd, he]
        rw [hs]
        simp

/-- A wait action in a loop trace forces the clean path: the stream ended
with end-of-input, the wait succeeded with that status, the loop's result
is success, and the trace ends with the end-of-input read immediately
followed by the wait. -/
theorem streamLoop_waited (ef : Nat → Option String) (re : ReadEnd)
    (w : Except String Bool) :
    ∀ (lines : List String) (k : Nat) (s : Bool),
      .waited s ∈ (streamLoop ef re w lines k).1 →
      re = .eof ∧ w = .ok s ∧ (streamLoop ef re w lines k).2 = .ok () ∧
      ∃ pre, (streamLoop ef re w lines k).1 = pre ++ [.readEOF, .waited s] := by
  intro lines
  induction lines with
  | nil =>
    intro k s hmem
    cases re with
    | eof =>
      cases w with
      | ok status =>
        have hs : streamLoop ef .eof (.ok status) [] k =
            ([.readEOF, .waited status], .ok ()) := by
          rw [streamLoop]
        rw [hs] at hmem ⊢
        simp at hmem
        subst hmem
        exact ⟨rfl, rfl, rfl, [], rfl⟩
      | error e =>
        have hs : streamLoop ef .eof (.error e) [] k = ([.readEOF], .error e) := by
          rw [streamLoop]
        rw [hs] at hmem
        simp at hmem
    | ioError m =>
      have hs : streamLoop ef (.ioError m) w [] k = ([.readErrored m], .error m) := by
        rw [streamLoop]
      rw [hs] at hmem
      simp at hmem
  | cons l rest ih =>
    intro k s hmem
    cases hd : decodeStreamChunk l with
    | none =>
      rcases hsp : streamLoop ef re w rest k with ⟨tr, res⟩
      have hs : streamLoop ef re w (l :: rest) k = (.readLine l :: tr, res) := by
        rw [streamLoop, hd, hsp]
      rw [hs] at hmem ⊢
      simp only [List.mem_cons] at hmem
      rcases hmem with h1 | h2
      · exact absurd h1 (by simp)
      · have hih := ih k s (by rw [hsp]; exact h2)
        rw [hsp] at hih
        obtain ⟨h1', h2', h3', pre, hpre⟩ := hih
        have hpre' : tr = pre ++ [StreamAction.readEOF, StreamAction.waited s] := hpre
        exact ⟨h1', h2', h3', .readLine l :: pre, by simp [hpre']⟩
    | some c =>
      cases he : ef k with
      | none =>
        rcases hsp : streamLoop ef re w rest (k + 1) with ⟨tr, res⟩
        have hs : streamLoop ef re w (l :: rest) k =
            (.readLine l :: .emitted "stream-chunk" c :: tr, res) := by
          rw [streamLoop, hd, he, hsp]
        rw [hs] at hmem ⊢
        simp only [List.mem_cons] at hmem
        rcases hmem with h1 | h2 | h3
        · exact absurd h1 (by simp)
        · exact absurd h2 (by simp)
        · have hih := ih (k + 1) s (by rw [hsp]; exact h3)
          rw [hsp] at hih
          obtain ⟨h1', h2', h3', pre, hpre⟩ := hih
          have hpre' : tr = pre ++ [StreamAction.readEOF, StreamAction.waited s] := hpre
          exact ⟨h1', h2', h3',
            .readLine l :: .emitted "stream-chunk" c :: pre, by simp [hpre']⟩
      | some e =>
        have hs : streamLoop ef re w (l :: rest) k = ([.readLine l], .error e) := by
          rw [streamLoop, hd, he]
        rw [hs] at hmem
        simp at hmem

/-- On a clean stream (end-of-input, every emit delivered, wait
succeeding), the loop returns success, emits exactly the decodable lines
in order on the "stream-chunk" channel, reads every line, and performs
the wait. -/
theorem streamLoop_eof_ok (ef : Nat → Option String) (h : ∀ n, ef n = none)
    (status : Bool) :
    ∀ (lines : List String) (k : Nat),
      (streamLoop ef .eof (.ok status) lines k).2 = .ok () ∧
      emittedChunks (streamLoop ef .eof (.ok status) lines k).1 =
        lines.filterMap decodeStreamChunk ∧
      linesRead (streamLoop ef .eof (.ok status) lines k).1 = lines ∧
      .waited status ∈ (streamLoop ef .eof (.ok status) lines k).1 ∧
      ∀ ch c, .emitted ch c ∈ (streamLoop ef .eof (.ok status) lines k).1 →
        ch = "stream-chunk" := by
  intro lines
  induction lines with
  | nil =>
    intro k
    have hs : streamLoop ef .eof (.ok status) [] k =
        ([.readEOF, .waited status], .ok ()) := by
      rw [streamLoop]
    rw [hs]
    refine ⟨rfl, by simp [emittedChunks], by simp [linesRead], by simp, ?_⟩
    intro ch c hmem
    simp at hmem
  | cons l rest ih =>
    intro k
    cases hd : decodeStreamChunk l with
    | none =>
      obtain ⟨ih1, ih2, ih3, ih4, ih5⟩ := ih k
      rcases hsp : streamLoop ef .eof (.ok status) rest k with ⟨tr, res⟩
      rw [hsp] at ih1 ih2 ih3 ih4 ih5
      have hs : streamLoop ef .eof (.ok status) (l :: rest) k =
          (.readLine l :: tr, res) := by
        rw [streamLoop, hd, hsp]
      rw [hs]
      refine ⟨ih1, ?_, ?_, List.mem_cons_of_mem _ ih4, ?_⟩
      · simpa [emittedChunks, List.filterMap_cons, hd] using ih2
      · simpa [linesRead, List.filterMap_cons] using ih3
      · intro ch c hmem
        rcases List.mem_cons.mp hmem with h1 | h2
        · exact absurd h1 (by simp)
        · exact ih5 ch c h2
    | some c =>
      obtain ⟨ih1, ih2, ih3, ih4, ih5⟩ := ih (k + 1)
      rcases hsp : streamLoop ef .eof (.ok status) rest (k + 1) with ⟨tr, res⟩
      rw [hsp] at ih1 ih2 ih3 ih4 ih5
      have hs : streamLoop ef .eof (.ok status) (l :: rest) k =
          (.readLine l :: .emitted "stream-chunk" c :: tr, res) := by
        rw [streamLoop, hd, h k, hsp]
      rw [hs]
      refine ⟨ih1, ?_, ?_,
        List.mem_cons_of_mem _ (List.mem_cons_of_mem _ ih4), ?_⟩
      · simpa [emittedChunks, List.filterMap_cons, hd] using ih2
      · simpa [linesRead, List.filterMap_cons] using ih3
      · intro ch c' hmem
        rcases List.mem_cons.mp hmem with h1 | hmem'
        · exact absurd h1 (by simp)
        · rcases List.mem_cons.mp hmem' with h2 | h3
          · cases h2
            rfl
          · exact ih5 ch c' h3

/-- When every emit is delivered, a stream that ends in a read I/O error
makes the loop return exactly that error. -/
theorem streamLoop_ioError_result (ef : Nat → Option String)
    (h : ∀ n, ef n = none) (m : String) (w : Except String Bool) :
    ∀ (lines : List String) (k : Nat),
      (streamLoop ef (.ioError m) w lines k).2 = .error m := by
  intro lines
  induction lines with
  | nil =>
    intro k
    rw [streamLoop]
  | cons l rest ih =>
    intro k
    cases hd : decodeStreamChunk l with
    | none =>
      rcases hsp : streamLoop ef (.ioError m) w rest k with ⟨tr, res⟩
      have hs : streamLoop ef (.ioError m) w (l :: rest) k = (.readLine l :: tr, res) := by
        rw [streamLoop, hd, hsp]
      have hres := ih k
      rw [hsp] at hres
      rw [hs]
      exact hres
    | some c =>
      rcases hsp : streamLoop ef (.ioError m) w rest (k + 1) with ⟨tr, res⟩
      have hs : streamLoop ef (.ioError m) w (l :: rest) k =
          (.readLine l :: .emitted "stream-chunk" c :: tr, res) := by
        rw [streamLoop, hd, h k, hsp]
      have hres := ih (k + 1)
      rw [hsp] at hres
      rw [hs]
      exact hres

/-- Unfolding of send_to_python_stream on the path where resolution,
existence check, spawn and the stdout take all succeed. -/
theorem send_to_python_stream_spawned (env : StreamEnv) (message script : String)
    (child : ChildSpec)
    (hres : resolveScript env.debugAssertions env.currentDir = .ok script)
    (hex : env.pathExists script = true)
    (hsp : env.spawn (pythonCmd env.windows) [script, message] = .ok child)
    (hav : child.stdoutAvailable = true) :
    send_to_python_stream env message =
      (.spawned ::
        (streamLoop env.emitFail child.readEnd child.waitResult child.stdoutLines 0).1,
       (streamLoop env.emitFail child.readEnd child.waitResult child.stdoutLines 0).2) := by
  rcases hsl : streamLoop env.emitFail child.readEnd child.waitResult child.stdoutLines 0
    with ⟨tr, res⟩
  unfold send_to_python_stream
  rw [hres]
  simp [hex, hsp, hav, hsl]

/-- A wait action in an invocation's trace forces the clean path: the
invocation returned success and its trace ends with the end-of-input read
immediately followed by the wait. -/
theorem send_to_python_stream_waited_inv (env : StreamEnv) (message : String)
    (s : Bool)
    (h : .waited s ∈ (send_to_python_stream env message).1) :
    (send_to_python_stream env message).2 = .ok () ∧
    ∃ pre, (send_to_python_stream env message).1 =
      pre ++ [.readEOF, .waited s] := by
  cases hres : resolveScript env.debugAssertions env.currentDir with
  | error e =>
    have heq : send_to_python_stream env message = ([], .error e) := by
      unfold send_to_python_stream
      rw [hres]
    rw [heq] at h
    simp at h
  | ok script =>
    cases hex : env.pathExists script with
    | false =>
      have heq : send_to_python_stream env message =
          ([], .error ("Python script not found at: " ++ quoteDebug script)) := by
        unfold send_to_python_stream
        rw [hres]
        simp [hex]
      rw [heq] at h
      simp at h
    | true =>
      cases hsp : env.spawn (pythonCmd env.windows) [script, message] with
      | error e =>
        have heq : send_to_python_stream env message =
            ([], .error ("Failed to execute python: " ++ e)) := by
          unfold send_to_python_stream
          rw [hres]
          simp [hex, hsp]
        rw [heq] at h
        simp at h
      | ok child =>
        cases hav : child.stdoutAvailable with
        | false =>
          have heq : send_to_python_stream env message =
              ([.spawned], .error "Failed to capture stdout") := by
            unfold send_to_python_stream
            rw [hres]
            simp [hex, hsp, hav]
          rw [heq] at h
          simp at h
        | true =>
          have heq := send_to_python_stream_spawned env message script child
            hres hex hsp hav
          have heq1 : (send_to_python_stream env message).1 =
              .spawned ::
                (streamLoop env.emitFail child.readEnd child.waitResult
                  child.stdoutLines 0).1 := by
            rw [heq]
          have heq2 : (send_to_python_stream env message).2 =
              (streamLoop env.emitFail child.readEnd child.waitResult
                child.stdoutLines 0).2 := by
            rw [heq]
          rw [heq1] at h
          rcases List.mem_cons.mp h with h1 | h2
          · exact absurd h1 (by simp)
          · obtain ⟨_, _, hres2, pre, hpre⟩ :=
              streamLoop_waited env.emitFail child.readEnd child.waitResult
                child.stdoutLines 0 s h2
            refine ⟨by rw [heq2]; exact hres2, .spawned :: pre, ?_⟩
            rw [heq1, hpre]
            simp

/-- C8: whenever a streaming invocation performs the wait for the child's
exit status, the trace up to that point ends with the reader reporting
end-of-input immediately before the wait; exit is never awaited while
undrained output remains. -/
theorem stream_waits_only_after_eof (env : StreamEnv) (message : String) (s : Bool)
    (h : .waited s ∈ (send_to_python_stream env message).1) :
    ∃ pre, (send_to_python_stream env message).1 =
      pre ++ [.readEOF, .waited s] :=
  (send_to_python_stream_waited_inv env message s h).2

/-- Closed instance of stream_waits_only_after_eof on a child whose
stream ends cleanly: the wait occurs, and the trace decomposes with the
end-of-input read immediately before it. -/
theorem stream_waits_only_after_eof_witness :
    ∃ pre,
      (send_to_python_stream
        ⟨false, false, .ok "/cwd", fun _ => true,
          fun _ _ => .ok ⟨true, [], .eof, .ok true⟩, fun _ => none⟩ "m").1 =
        pre ++ [.readEOF, .waited true] :=
  stream_waits_only_after_eof
    ⟨false, false, .ok "/cwd", fun _ => true,
      fun _ _ => .ok ⟨true, [], .eof, .ok true⟩, fun _ => none⟩ "m" true (by decide)

/-- C2: when the child emits only well-formed lines, ends its stream
cleanly and its wait succeeds, and every emit is delivered, the streaming
invoker publishes exactly one unit per line, in emission order, each on
the "stream-chunk" channel, and returns success whatever the exit status
was. -/
theorem stream_delivers_all_units_in_order (env : StreamEnv)
    (message script : String) (child : ChildSpec) (status : Bool)
    (hres : resolveScript env.debugAssertions env.currentDir = .ok script)
    (hex : env.pathExists script = true)
    (hsp : env.spawn (pythonCmd env.windows) [script, message] = .ok child)
    (hav : child.stdoutAvailable = true)
    (heof : child.readEnd = .eof)
    (hwait : child.waitResult = .ok status)
    (hemit : ∀ n, env.emitFail n = none)
    (hwf : ∀ l ∈ child.stdoutLines, (decodeStreamChunk l).isSome) :
    (send_to_python_stream env message).2 = .ok () ∧
    emittedChunks (send_to_python_stream env message).1 =
      child.stdoutLines.filterMap decodeStreamChunk ∧
    (emittedChunks (send_to_python_stream env message).1).length =
      child.stdoutLines.length ∧
    ∀ ch c, .emitted ch c ∈ (send_to_python_stream env message).1 →
      ch = "stream-chunk" := by
  have heq := send_to_python_stream_spawned env message script child hres hex hsp hav
  rw [heof, hwait] at heq
  have heq1 : (send_to_python_stream env message).1 =
      .spawned :: (streamLoop env.emitFail .eof (.ok status) child.stdoutLines 0).1 := by
    rw [heq]
  have heq2 : (send_to_python_stream env message).2 =
      (streamLoop env.emitFail .eof (.ok status) child.stdoutLines 0).2 := by
    rw [heq]
  obtain ⟨h1, h2, h3, h4, h5⟩ :=
    streamLoop_eof_ok env.emitFail hemit status child.stdoutLines 0
  have hchunks : emittedChunks (send_to_python_stream env message).1 =
      child.stdoutLines.filterMap decodeStreamChunk := by
    rw [heq1]
    simpa [emittedChunks, List.filterMap_cons] using h2
  refine ⟨by rw [heq2]; exact h1, hchunks, ?_, ?_⟩
  · rw [hchunks]
    exact length_filterMap_of_isSome decodeStreamChunk child.stdoutLines hwf
  · intro ch c hmem
    rw [heq1] at hmem
    rcases List.mem_cons.mp hmem with h6 | h7
    · exact absurd h6 (by simp)
    · exact h5 ch c h7

/-- Closed instance of stream_delivers_all_units_in_order: the spec's
concrete scenario of three well-formed lines (two content chunks and a
done marker) yields success and exactly those three units in order. -/
theorem stream_delivers_all_units_in_order_witness :
    (send_to_python_stream
      ⟨false, false, .ok "/cwd", fun _ => true,
        fun _ _ => .ok ⟨true,
          ["\x7b\"type\":\"content\",\"content\":\"a\"\x7d",
           "\x7b\"type\":\"content\",\"content\":\"b\"\x7d",
           "\x7b\"type\":\"done\",\"success\":true\x7d"], .eof, .ok true⟩,
        fun _ => none⟩ "hello").2 = .ok () ∧
    emittedChunks (send_to_python_stream
      ⟨false, false, .ok "/cwd", fun _ => true,
        fun _ _ => .ok ⟨true,
          ["\x7b\"type\":\"content\",\"content\":\"a\"\x7d",
           "\x7b\"type\":\"content\",\"content\":\"b\"\x7d",
           "\x7b\"type\":\"done\",\"success\":true\x7d"], .eof, .ok true⟩,
        fun _ => none⟩ "hello").1 =
      (["\x7b\"type\":\"content\",\"content\":\"a\"\x7d",
        "\x7b\"type\":\"content\",\"content\":\"b\"\x7d",
        "\x7b\"type\":\"done\",\"success\":true\x7d"] :
          List String).filterMap decodeStreamChunk :=
  ⟨(stream_delivers_all_units_in_order
      ⟨false, false, .ok "/cwd", fun _ => true,
        fun _ _ => .ok ⟨true,
          ["\x7b\"type\":\"content\",\"content\":\"a\"\x7d",
           "\x7b\"type\":\"content\",\"content\":\"b\"\x7d",
           "\x7b\"type\":\"done\",\"success\":true\x7d"], .eof, .ok true⟩,
        fun _ => none⟩ "hello" "python/chat_handler.py"
      ⟨true,
        ["\x7b\"type\":\"content\",\"content\":\"a\"\x7d",
         "\x7b\"type\":\"content\",\"content\":\"b\"\x7d",
         "\x7b\"type\":\"done\",\"success\":true\x7d"], .eof, .ok true⟩ true
      rfl rfl rfl rfl rfl rfl (fun _ => rfl) (by decide)).1,
   (stream_delivers_all_units_in_order
      ⟨false, false, .ok "/cwd", fun _ => true,
        fun _ _ => .ok ⟨true,
          ["\x7b\"type\":\"content\",\"content\":\"a\"\x7d",
           "\x7b\"type\":\"content\",\"content\":\"b\"\x7d",
           "\x7b\"type\":\"done\",\"success\":true\x7d"], .eof, .ok true⟩,
        fun _ => none⟩ "hello" "python/chat_handler.py"
      ⟨true,
        ["\x7b\"type\":\"content\",\"content\":\"a\"\x7d",
         "\x7b\"type\":\"content\",\"content\":\"b\"\x7d",
         "\x7b\"type\":\"done\",\"success\":true\x7d"], .eof, .ok true⟩ true
      rfl rfl rfl rfl rfl rfl (fun _ => rfl) (by decide)).2.1⟩

/-- C3: a malformed line among well-formed lines is silently dropped: the
invocation still returns success after the process exits, the sink
receives exactly the units of the well-formed lines in order, and the
count is one less than the number of lines. -/
theorem stream_drops_malformed_line (env : StreamEnv)
    (message script : String) (child : ChildSpec) (status : Bool)
    (pre post : List String) (bad : String)
    (hres : resolveScript env.debugAssertions env.currentDir = .ok script)
    (hex : env.pathExists script = true)
    (hsp : env.spawn (pythonCmd env.windows) [script, message] = .ok child)
    (hav : child.stdoutAvailable = true)
    (heof : child.readEnd = .eof)
    (hwait : child.waitResult = .ok status)
    (hemit : ∀ n, env.emitFail n = none)
    (hlines : child.stdoutLines = pre ++ bad :: post)
    (hbad : decodeStreamChunk bad = none)
    (hpre : ∀ l ∈ pre, (decodeStreamChunk l).isSome)
    (hpost : ∀ l ∈ post, (decodeStreamChunk l).isSome) :
    (send_to_python_stream env message).2 = .ok () ∧
    emittedChunks (send_to_python_stream env message).1 =
      pre.filterMap decodeStreamChunk ++ post.filterMap decodeStreamChunk ∧
    (emittedChunks (send_to_python_stream env message).1).length =
      child.stdoutLines.length - 1 := by
  have heq := send_to_python_stream_spawned env message script child hres hex hsp hav
  rw [heof, hwait] at heq
  have heq1 : (send_to_python_stream env message).1 =
      .spawned :: (streamLoop env.emitFail .eof (.ok status) child.stdoutLines 0).1 := by
    rw [heq]
  have heq2 : (send_to_python_stream env message).2 =
      (streamLoop env.emitFail .eof (.ok status) child.stdoutLines 0).2 := by
    rw [heq]
  obtain ⟨h1, h2, h3, h4, h5⟩ :=
    streamLoop_eof_ok env.emitFail hemit status child.stdoutLines 0
  have hchunks : emittedChunks (send_to_python_stream env message).1 =
      pre.filterMap decodeStreamChunk ++ post.filterMap decodeStreamChunk := by
    rw [heq1, hlines]
    have h2' := h2
    rw [hlines] at h2'
    simpa [emittedChunks, List.filterMap_cons, List.filterMap_append, hbad] using h2'
  refine ⟨by rw [heq2]; exact h1, hchunks, ?_⟩
  rw [hchunks, hlines]
  have hl1 := length_filterMap_of_isSome decodeStreamChunk pre hpre
  have hl2 := length_filterMap_of_isSome decodeStreamChunk post hpost
  simp [hl1, hl2]

/-- Closed instance of stream_drops_malformed_line: one malformed line
between two well-formed ones yields success and exactly the two decoded
units. -/
theorem stream_drops_malformed_line_witness :
    (send_to_python_stream
      ⟨false, false, .ok "/cwd", fun _ => true,
        fun _ _ => .ok ⟨true,
          ["\x7b\"type\":\"content\",\"content\":\"a\"\x7d",
           "not json",
           "\x7b\"type\":\"done\",\"success\":true\x7d"], .eof, .ok true⟩,
        fun _ => none⟩ "hello").2 = .ok () ∧
    emittedChunks (send_to_python_stream
      ⟨false, false, .ok "/cwd", fun _ => true,
        fun _ _ => .ok ⟨true,
          ["\x7b\"type\":\"content\",\"content\":\"a\"\x7d",
           "not json",
           "\x7b\"type\":\"done\",\"success\":true\x7d"], .eof, .ok true⟩,
        fun _ => none⟩ "hello").1 =
      (["\x7b\"type\":\"content\",\"content\":\"a\"\x7d"] :
          List String).filterMap decodeStreamChunk ++
        (["\x7b\"type\":\"done\",\"success\":true\x7d"] :
          List String).filterMap decodeStreamChunk :=
  ⟨(stream_drops_malformed_line
      ⟨false, false, .ok "/cwd", fun _ => true,
        fun _ _ => .ok ⟨true,
          ["\x7b\"type\":\"content\",\"content\":\"a\"\x7d",
           "not json",
           "\x7b\"type\":\"done\",\"success\":true\x7d"], .eof, .ok true⟩,
        fun _ => none⟩ "hello" "python/chat_handler.py"
      ⟨true,
        ["\x7b\"type\":\"content\",\"content\":\"a\"\x7d",
         "not json",
         "\x7b\"type\":\"done\",\"success\":true\x7d"], .eof, .ok true⟩ true
      ["\x7b\"type\":\"content\",\"content\":\"a\"\x7d"]
      ["\x7b\"type\":\"done\",\"success\":true\x7d"] "not json"
      rfl rfl rfl rfl rfl rfl (fun _ => rfl) rfl (by decide) (by decide) (by decide)).1,
   (stream_drops_malformed_line
      ⟨false, false, .ok "/cwd", fun _ => true,
        fun _ _ => .ok ⟨true,
          ["\x7b\"type\":\"content\",\"content\":\"a\"\x7d",
           "not json",
           "\x7b\"type\":\"done\",\"success\":true\x7d"], .eof, .ok true⟩,
        fun _ => none⟩ "hello" "python/chat_handler.py"
      ⟨true,
        ["\x7b\"type\":\"content\",\"content\":\"a\"\x7d",
         "not json",
         "\x7b\"type\":\"done\",\"success\":true\x7d"], .eof, .ok true⟩ true
      ["\x7b\"type\":\"content\",\"content\":\"a\"\x7d"]
      ["\x7b\"type\":\"done\",\"success\":true\x7d"] "not json"
      rfl rfl rfl rfl rfl rfl (fun _ => rfl) rfl (by decide) (by decide) (by decide)).2.1⟩

/-- C1 counterexample: on a read error mid-stream the invoker returns the
error with the spawned child neither awaited nor killed — the trace of
the invocation contains the spawn but no wait and no kill. -/
theorem stream_leaks_child_on_read_error_cex :
    send_to_python_stream
        ⟨false, false, .ok "/cwd", fun _ => true,
          fun _ _ => .ok ⟨true, [], .ioError "broken pipe", .ok true⟩,
          fun _ => none⟩ "hello" =
      ([.spawned, .readErrored "broken pipe"], .error "broken pipe") ∧
    StreamAction.spawned ∈
      [StreamAction.spawned, StreamAction.readErrored "broken pipe"] ∧
    StreamAction.waited true ∉
      [StreamAction.spawned, StreamAction.readErrored "broken pipe"] ∧
    StreamAction.waited false ∉
      [StreamAction.spawned, StreamAction.readErrored "broken pipe"] ∧
    StreamAction.killed ∉
      [StreamAction.spawned, StreamAction.readErrored "broken pipe"] := by
  refine ⟨rfl, ?_, ?_, ?_, ?_⟩ <;> decide

/-- C1 amended: the invoker never kills the child on any path; the child
is awaited on the clean path (stream drained to end-of-input, every emit
delivered, wait succeeding); a wait in the trace happens only when the
invocation returns success, so on every error return — including a read
error mid-stream and a failed sink delivery — the call returns without
awaiting or killing the child; and on the read-error path specifically
the call returns that error with no wait in its trace. -/
theorem stream_child_reaping_amended :
    (∀ (env : StreamEnv) (message : String),
      StreamAction.killed ∉ (send_to_python_stream env message).1) ∧
    (∀ (env : StreamEnv) (message script : String) (child : ChildSpec) (status : Bool),
      resolveScript env.debugAssertions env.currentDir = .ok script →
      env.pathExists script = true →
      env.spawn (pythonCmd env.windows) [script, message] = .ok child →
      child.stdoutAvailable = true →
      child.readEnd = .eof →
      child.waitResult = .ok status →
      (∀ n, env.emitFail n = none) →
      .waited status ∈ (send_to_python_stream env message).1) ∧
    (∀ (env : StreamEnv) (message : String) (s : Bool),
      .waited s ∈ (send_to_python_stream env message).1 →
      (send_to_python_stream env message).2 = .ok ()) ∧
    (∀ (env : StreamEnv) (message script : String) (child : ChildSpec) (m : String),
      resolveScript env.debugAssertions env.currentDir = .ok script →
      env.pathExists script = true →
      env.spawn (pythonCmd env.windows) [script, message] = .ok child →
      child.stdoutAvailable = true →
      child.readEnd = .ioError m →
      (∀ n, env.emitFail n = none) →
      (send_to_python_stream env message).2 = .error m ∧
      ∀ s, .waited s ∉ (send_to_python_stream env message).1) := by
  refine ⟨?_, ?_, ?_, ?_⟩
  · intro env message
    cases hres : resolveScript env.debugAssertions env.currentDir with
    | error e =>
      have heq : send_to_python_stream env message = ([], .error e) := by
        unfold send_to_python_stream
        rw [hres]
      rw [heq]
      simp
    | ok script =>
      cases hex : env.pathExists script with
      | false =>
        have heq : send_to_python_stream env message =
            ([], .error ("Python script not found at: " ++ quoteDebug script)) := by
          unfold send_to_python_stream
          rw [hres]
          simp [hex]
        rw [heq]
        simp
      | true =>
        cases hsp : env.spawn (pythonCmd env.windows) [script, message] with
        | error e =>
          have heq : send_to_python_stream env message =
              ([], .error ("Failed to execute python: " ++ e)) := by
            unfold send_to_python_stream
            rw [hres]
            simp [hex, hsp]
          rw [heq]
          simp
        | ok child =>
          cases hav : child.stdoutAvailable with
          | false =>
            have heq : send_to_python_stream env message =
                ([.spawned], .error "Failed to capture stdout") := by
              unfold send_to_python_stream
              rw [hres]
              simp [hex, hsp, hav]
            rw [heq]
            simp
          | true =>
            have heq := send_to_python_stream_spawned env message script child
              hres hex hsp hav
            have heq1 : (send_to_python_stream env message).1 =
                .spawned ::
                  (streamLoop env.emitFail child.readEnd child.waitResult
                    child.stdoutLines 0).1 := by
              rw [heq]
            rw [heq1]
            intro hmem
            rcases List.mem_cons.mp hmem with h1 | h2
            · exact absurd h1 (by simp)
            · exact streamLoop_no_kill env.emitFail child.readEnd child.waitResult
                child.stdoutLines 0 h2
  · intro env message script child status hres hex hsp hav heof hwait hemit
    have heq := send_to_python_stream_spawned env message script child hres hex hsp hav
    rw [heof, hwait] at heq
    have heq1 : (send_to_python_stream env message).1 =
        .spawned :: (streamLoop env.emitFail .eof (.ok status) child.stdoutLines 0).1 := by
      rw [heq]
    rw [heq1]
    exact List.mem_cons_of_mem _
      (streamLoop_eof_ok env.emitFail hemit status child.stdoutLines 0).2.2.2.1
  · intro env message s hmem
    exact (send_to_python_stream_waited_inv env message s hmem).1
  · intro env message script child m hres hex hsp hav hio hemit
    have heq := send_to_python_stream_spawned env message script child hres hex hsp hav
    rw [hio] at heq
    have heq1 : (send_to_python_stream env message).1 =
        .spawned ::
          (streamLoop env.emitFail (.ioError m) child.waitResult
            child.stdoutLines 0).1 := by
      rw [heq]
    have heq2 : (send_to_python_stream env message).2 =
        (streamLoop env.emitFail (.ioError m) child.waitResult
          child.stdoutLines 0).2 := by
      rw [heq]
    refine ⟨by
      rw [heq2]
      exact streamLoop_ioError_result env.emitFail hemit m child.waitResult
        child.stdoutLines 0, ?_⟩
    intro s hmem
    rw [heq1] at hmem
    rcases List.mem_cons.mp hmem with h1 | h2
    · exact absurd h1 (by simp)
    · obtain ⟨hcontra, _, _, _⟩ :=
        streamLoop_waited env.emitFail (.ioError m) child.waitResult
          child.stdoutLines 0 s h2
      exact absurd hcontra (by simp)

/-- Closed instance of stream_child_reaping_amended: a clean invocation
whose trace contains the wait and no kill. -/
theorem stream_child_reaping_amended_witness :
    StreamAction.killed ∉
      (send_to_python_stream
        ⟨false, false, .ok "/cwd", fun _ => true,
          fun _ _ => .ok ⟨true, [], .eof, .ok false⟩, fun _ => none⟩ "m").1 ∧
    StreamAction.waited false ∈
      (send_to_python_stream
        ⟨false, false, .ok "/cwd", fun _ => true,
          fun _ _ => .ok ⟨true, [], .eof, .ok false⟩, fun _ => none⟩ "m").1 :=
  ⟨stream_child_reaping_amended.1
      ⟨false, false, .ok "/cwd", fun _ => true,
        fun _ _ => .ok ⟨true, [], .eof, .ok false⟩, fun _ => none⟩ "m",
   stream_child_reaping_amended.2.1
      ⟨false, false, .ok "/cwd", fun _ => true,
        fun _ _ => .ok ⟨true, [], .eof, .ok false⟩, fun _ => none⟩ "m"
      "python/chat_handler.py" ⟨true, [], .eof, .ok false⟩ false
      rfl rfl rfl rfl rfl rfl (fun _ => rfl)⟩
